import Mathlib

/-!
Verification of the asynchronous job / iterator orchestration layer of the
gopowermax client (sloprovisioning.go) and its in-memory mock server.

The embedding is shallow: Go `int` becomes `Int` (the values involved stay far
below any machine bound), fallible Go functions become `Except String α`,
HTTP collaborators become explicit function parameters, and the requests a
client function issues are recorded in an explicit event trace.
-/

deriving instance DecidableEq for Except

namespace Pmax

/-- `MaxVolIdentifierLength` constant from sloprovisioning.go. -/
def MaxVolIdentifierLength : Int := 64

/-- Job status constants from types/v100/types.go. -/
def JobStatusUnscheduled : String := "UNSCHEDULED"

/-- Job status constant SCHEDULED. -/
def JobStatusScheduled : String := "SCHEDULED"

/-- Job status constant SUCCEEDED. -/
def JobStatusSucceeded : String := "SUCCEEDED"

/-- Job status constant FAILED. -/
def JobStatusFailed : String := "FAILED"

/-- Job status constant RUNNING. -/
def JobStatusRunning : String := "RUNNING"

/-- `types.VolumeResultList`: the `VolumeList []VolumeIDList` field is a list of
single-string entries (`VolumeIDs`), embedded here directly as `List String`,
together with the 1-based inclusive offsets `From` and `To`
(wire contract: `resultList: { from, to, elements[] }`). -/
structure VolumeResultList where
  VolumeList : List String
  From : Int
  To : Int
deriving Repr, DecidableEq

/-- `types.VolumeIterator`: iterator handle with embedded first page
(wire contract: `{ id, count, maxPageSize, expirationTime, resultList }`). -/
structure VolumeIterator where
  ResultList : VolumeResultList
  ID : String
  Count : Int
  MaxPageSize : Int
  ExpirationTime : Int
deriving Repr, DecidableEq

/-- The page-fetch transport: given the (already adjusted) query parameters
`from` and `to` of `GET /common/Iterator/{id}/page`, produce the decoded
element list of the response body, or a transport/decode error. -/
abbrev PageServer := Int → Int → Except String (List String)

/-- The `to`-parameter adjustment at the top of `GetVolumeIDsIteratorPage`
(sloprovisioning.go lines 122-127):
`if to == 0 || to-from+1 > iter.MaxPageSize { to = from + iter.MaxPageSize - 1 }`;
`if to > iter.Count { to = iter.Count }`. -/
def clampToCount (iter : VolumeIterator) (t1 : Int) : Int :=
  if t1 > iter.Count then iter.Count else t1

/-- The defaulting step of the adjustment followed by the clamp. -/
def adjustTo (iter : VolumeIterator) (f t : Int) : Int :=
  clampToCount iter
    (if t = 0 ∨ t - f + 1 > iter.MaxPageSize then f + iter.MaxPageSize - 1 else t)

/-- `make([]string, n)` followed by copying the decoded elements into the
front: the result keeps the server's elements in order and leaves the
remaining positions as the zero value `""`. -/
def padTo (n : Nat) (xs : List String) : List String :=
  xs ++ List.replicate (n - xs.length) ""

/-- `GetVolumeIDsIteratorPage` (sloprovisioning.go lines 120-155): adjust `to`,
issue the page GET, then build a slice of length `to-from+1` from the decoded
`VolumeList`.  A negative length makes `make` panic; a response longer than the
slice makes the copy loop panic; both panics are embedded as errors. -/
def getVolumeIDsIteratorPage (server : PageServer) (iter : VolumeIterator)
    (f t : Int) : Except String (List String) :=
  let t := adjustTo iter f t
  match server f t with
  | Except.error e => Except.error e
  | Except.ok elems =>
    if t - f + 1 < 0 then Except.error "panic: makeslice: len out of range"
    else if (elems.length : Int) > t - f + 1 then Except.error "panic: index out of range"
    else Except.ok (padTo (t - f + 1).toNat elems)

/-- The HTTP requests a drain issues, in order: page GETs (with the adjusted
query range) and the iterator DELETE. -/
inductive Event where
  | pageGet (f t : Int)
  | deleteIter (id : String)
deriving Repr, DecidableEq

/-- The paging loop of `volumeIteratorToVolIDList` (sloprovisioning.go lines
209-216): `for from := result.To + 1; from <= iter.Count; { idlist := page(from, 0);
append; from += len(idlist) }`.  `fuel` bounds the iteration count (the Go loop
has no structural bound; the theorems show the chosen fuel is never exhausted
for the servers considered). -/
def volLoop (server : PageServer) (iter : VolumeIterator) :
    Nat → Int → List String → Except String (List String) × List Event
  | 0, f, acc =>
    if f ≤ iter.Count then (Except.error "out of fuel", []) else (Except.ok acc, [])
  | fuel + 1, f, acc =>
    if f ≤ iter.Count then
      match getVolumeIDsIteratorPage server iter f 0 with
      | Except.error e => (Except.error e, [Event.pageGet f (adjustTo iter f 0)])
      | Except.ok idlist =>
        let p := volLoop server iter fuel (f + (idlist.length : Int)) (acc ++ idlist)
        (p.fst, Event.pageGet f (adjustTo iter f 0) :: p.snd)
    else (Except.ok acc, [])

/-- Fuel for the drain; enough for any server that returns at least one element
per page (each iteration advances `from` by the page length). -/
def drainFuel (iter : VolumeIterator) : Nat := iter.Count.toNat + 1

/-- `volumeIteratorToVolIDList` (sloprovisioning.go lines 195-221): copy the
embedded first page, walk the remaining pages, check the final length against
`iter.Count`, and (deferred, so last, and on every exit path) delete the
iterator resource when `MaxPageSize < Count`.  `deleteOutcome` is the result of
the deferred `DeleteVolumeIDsIterator` call; the `defer` statement discards it,
so it influences neither the returned value nor the returned error. -/
def volumeIteratorToVolIDList (server : PageServer) (deleteOutcome : Except String Unit)
    (iter : VolumeIterator) : Except String (List String) × List Event :=
  let first := iter.ResultList.VolumeList
  let p := volLoop server iter (drainFuel iter) (iter.ResultList.To + 1) first
  let res :=
    match p.fst with
    | Except.error e => Except.error e
    | Except.ok l =>
      if (l.length : Int) ≠ iter.Count then
        Except.error ("Expected " ++ toString iter.Count ++ " ids but got "
          ++ toString l.length ++ " ids")
      else Except.ok l
  let evs := p.snd ++ (if iter.MaxPageSize < iter.Count then [Event.deleteIter iter.ID] else [])
  (res, evs)

/-- The mock server's page handler `handleIterator` GET branch (mock part_000
lines 717-747) over the backing list `Data.VolumeIDIteratorList`: it echoes the
query range and collects `Data.VolumeIDIteratorList[i]` for
`i := from-1; i < to-1; i++`.  An index outside the backing list panics. -/
def mockHandleIteratorGet (L : List String) : PageServer := fun f t =>
  if f - 1 < t - 1 ∧ (f - 1 < 0 ∨ (L.length : Int) < t - 1) then
    Except.error "panic: index out of range"
  else
    Except.ok ((L.drop (f - 1).toNat).take (t - f).toNat)

/-- The mock server's iterator construction in `handleVolume` (mock part_000
lines 488-503): `Count = len(list)`, `ID = "Volume"`, `MaxPageSize = 10`, first
page `[1, min(len, 10)]` filled by `for i := From-1; i <= To-1; i++`. -/
def mockVolumeIterator (L : List String) : VolumeIterator :=
  let numberToDo : Int := if (L.length : Int) > 10 then 10 else (L.length : Int)
  { Count := (L.length : Int), ID := "Volume", MaxPageSize := 10, ExpirationTime := 0,
    ResultList := { From := 1, To := numberToDo, VolumeList := L.take numberToDo.toNat } }

/-- `types.Job` (types/v100/types.go): the fields the orchestration layer reads
and the mock writes. -/
structure Job where
  JobID : String := ""
  Status : String := ""
  Result : String := ""
  ResourceLink : String := ""
  CompletedDate : String := ""
deriving Repr, DecidableEq

/-- `JobInfo` (mock part_000 lines 645-649): a mock job together with the two
states it is scripted to report. -/
structure JobInfo where
  job : Job
  InitialState : String
  FinalState : String
deriving Repr, DecidableEq

/-- `NewMockJob` (mock part_000 lines 651-661): a fresh mock job starts with
`Status = "SCHEDULED"` and the given resource link. -/
def NewMockJob (jobID initialState finalState resourceLink : String) : JobInfo :=
  { job := { JobID := jobID, Status := "SCHEDULED", ResourceLink := resourceLink },
    InitialState := initialState, FinalState := finalState }

/-- `returnJobByID` (mock part_000 lines 694-714), found case: if the stored
status equals `InitialState` the job moves to `FinalState` (stamping a
completion date, modelled by the `now` parameter, and the result
"Mock job completed"), otherwise it moves (back) to `InitialState` with the
result "Mock job in-progress".  Returns the updated store entry and the
encoded response body. -/
def returnJobByID (now : String) (ji : JobInfo) : JobInfo × Job :=
  let j := ji.job
  let jNew :=
    if j.Status = ji.InitialState then
      { j with Status := ji.FinalState, CompletedDate := now, Result := "Mock job completed" }
    else
      { j with Status := ji.InitialState, Result := "Mock job in-progress" }
  ({ ji with job := jNew }, jNew)

/-- The sequence of response bodies produced by `n` successive GETs of the same
mock job. -/
def mockJobGets (now : String) (ji : JobInfo) : Nat → List Job
  | 0 => []
  | n + 1 =>
    let p := returnJobByID now ji
    p.snd :: mockJobGets now p.fst n

/-- Modelled from the spec: `WaitOnJobCompletion` is declared in interface.go
but implemented outside the sources given here.  Per the spec it polls
`GET /job/{jobID}` in a loop, exits as soon as the decoded status is SUCCEEDED
or FAILED, and otherwise sleeps and polls again, bounded by a deadline (the
`fuel`; `none` models the timeout error).  Here the polled resource is the mock
job store; the second component counts the GETs issued. -/
def waitOnJobCompletionMock (now : String) : Nat → JobInfo → Nat → Option (Job × Nat)
  | 0, _, _ => none
  | fuel + 1, ji, n =>
    let p := returnJobByID now ji
    if p.snd.Status = JobStatusSucceeded ∨ p.snd.Status = JobStatusFailed then
      some (p.snd, n + 1)
    else waitOnJobCompletionMock now fuel p.fst (n + 1)

/-- Modelled from the spec: `JobToString` is declared in interface.go but
implemented outside the sources given here; per the spec it "renders a compact
human-readable summary (id, status, result) for diagnostics; pure, no I/O". -/
def jobToString (j : Job) : String :=
  "Job id: " ++ j.JobID ++ " status: " ++ j.Status ++ " result: " ++ j.Result

/-- A minimal `types.Volume` stand-in: the volume-returning operations under
study only thread the decoded volume through. -/
structure Volume where
  VolumeID : String := ""
deriving Repr, DecidableEq

/-- The HTTP requests a provisioning operation issues, in order. -/
inductive Req where
  | putUpdateSG
  | getJob
  | getVolume
deriving Repr, DecidableEq

/-- The external collaborators of a provisioning operation: the local
allowed-array check (no HTTP), and the outcomes of the storage-group PUT
(async variant returning a decoded `*types.Job`, `none` when the decoded job
pointer is nil; synchronous variant returning no body), of the poll to
completion, and of the volume lookup by identifier. -/
structure ClientEnv where
  isAllowedArray : Bool
  updateStorageGroup : Except String (Option Job)
  updateStorageGroupS : Except String Unit
  waitOnJob : Except String Job
  getVolumeByIdentifier : Except String Volume
deriving Repr

/-- `AddVolumesToStorageGroup` (sloprovisioning.go lines 614-638): allowed-array
check, non-empty id list check, async PUT, poll to completion, then the
`switch job.Status` that turns a terminal FAILED into an error wrapping
`JobToString(job)`.  The second component is the trace of requests issued. -/
def AddVolumesToStorageGroup (env : ClientEnv) (volumeIDs : List String) :
    Except String Unit × List Req :=
  if ¬ env.isAllowedArray then (Except.error "not an allowed array", [])
  else if volumeIDs.length = 0 then
    (Except.error "At least one volume id has to be specified", [])
  else
    match env.updateStorageGroup with
    | Except.error _ =>
      (Except.error "A job was not returned from UpdateStorageGroup", [Req.putUpdateSG])
    | Except.ok none =>
      (Except.error "A job was not returned from UpdateStorageGroup", [Req.putUpdateSG])
    | Except.ok (some _) =>
      match env.waitOnJob with
      | Except.error e => (Except.error e, [Req.putUpdateSG, Req.getJob])
      | Except.ok job =>
        if job.Status = JobStatusFailed then
          (Except.error ("The UpdateStorageGroup job failed: " ++ jobToString job),
           [Req.putUpdateSG, Req.getJob])
        else (Except.ok (), [Req.putUpdateSG, Req.getJob])

/-- `CreateVolumeInStorageGroup` (sloprovisioning.go lines 479-508):
allowed-array check, the volume-name length guard (`len(volumeName) >
MaxVolIdentifierLength`, a byte length in Go, hence `utf8ByteSize`), async PUT,
poll, the FAILED switch, then the identifier lookup.  The second component is
the trace of requests issued; the guard fires before any request. -/
def CreateVolumeInStorageGroup (env : ClientEnv) (volumeName : String) :
    Except String Volume × List Req :=
  if ¬ env.isAllowedArray then (Except.error "not an allowed array", [])
  else if (volumeName.utf8ByteSize : Int) > MaxVolIdentifierLength then
    (Except.error "Length of volumeName exceeds max limit", [])
  else
    match env.updateStorageGroup with
    | Except.error _ =>
      (Except.error "A job was not returned from UpdateStorageGroup", [Req.putUpdateSG])
    | Except.ok none =>
      (Except.error "A job was not returned from UpdateStorageGroup", [Req.putUpdateSG])
    | Except.ok (some _) =>
      match env.waitOnJob with
      | Except.error e => (Except.error e, [Req.putUpdateSG, Req.getJob])
      | Except.ok job =>
        if job.Status = JobStatusFailed then
          (Except.error ("The UpdateStorageGroup job failed: " ++ jobToString job),
           [Req.putUpdateSG, Req.getJob])
        else
          match env.getVolumeByIdentifier with
          | Except.error e => (Except.error e, [Req.putUpdateSG, Req.getJob, Req.getVolume])
          | Except.ok v => (Except.ok v, [Req.putUpdateSG, Req.getJob, Req.getVolume])

/-- `CreateVolumeInStorageGroupS` (sloprovisioning.go lines 538-556): the
synchronous variant; same allowed-array and volume-name length guards, then the
synchronous PUT and the identifier lookup. -/
def CreateVolumeInStorageGroupS (env : ClientEnv) (volumeName : String) :
    Except String Volume × List Req :=
  if ¬ env.isAllowedArray then (Except.error "not an allowed array", [])
  else if (volumeName.utf8ByteSize : Int) > MaxVolIdentifierLength then
    (Except.error "Length of volumeName exceeds max limit", [])
  else
    match env.updateStorageGroupS with
    | Except.error e =>
      (Except.error ("couldn't create volume. error - " ++ e), [Req.putUpdateSG])
    | Except.ok _ =>
      match env.getVolumeByIdentifier with
      | Except.error e => (Except.error e, [Req.putUpdateSG, Req.getVolume])
      | Except.ok v => (Except.ok v, [Req.putUpdateSG, Req.getVolume])

/-! Concrete test vectors used by the theorems below. -/

/-- Thirty-two distinct volume ids, the backing list for `count = 3*maxPageSize+2`. -/
def l32 : List String := (List.range 32).map (fun i => "V" ++ toString (i + 1))

/-- Ten distinct volume ids (one full first page). -/
def l10 : List String := (List.range 10).map (fun i => "V" ++ toString (i + 1))

/-- What draining the mock iterator over `l32` actually produces: the last
element of every fetched page range ([11,20], [21,30], [31,32]) is dropped by
the mock and padded to `""` by the client. -/
def badList32 : List String :=
  ["V1", "V2", "V3", "V4", "V5", "V6", "V7", "V8", "V9", "V10",
   "V11", "V12", "V13", "V14", "V15", "V16", "V17", "V18", "V19", "",
   "V21", "V22", "V23", "V24", "V25", "V26", "V27", "V28", "V29", "",
   "V31", ""]

/-- An iterator declaring `count = 11` with a full first page `[1,10]`. -/
def iter11 : VolumeIterator :=
  { ID := "it1", Count := 11, MaxPageSize := 10, ExpirationTime := 0,
    ResultList := { From := 1, To := 10, VolumeList := l10 } }

/-- A page server whose every page body decodes to zero elements. -/
def emptyPages : PageServer := fun _ _ => Except.ok []

/-- An iterator whose embedded first page declares the range `[1,5]` but
carries only 3 elements (`count = 5`: the whole result claims to fit in the
first page). -/
def iterShort : VolumeIterator :=
  { ID := "it2", Count := 5, MaxPageSize := 10, ExpirationTime := 0,
    ResultList := { From := 1, To := 5, VolumeList := ["V1", "V2", "V3"] } }

/-- A page server answering every page request with exactly two elements. -/
def serverAB : PageServer := fun _ _ => Except.ok ["A", "B"]

/-- A job that reached the terminal FAILED status. -/
def failedJob : Job :=
  { JobID := "j1", Status := "FAILED", Result := "boom", ResourceLink := "rl" }

/-- A collaborator environment whose asynchronous update returns a job that
then polls to FAILED. -/
def envFailed : ClientEnv :=
  { isAllowedArray := true,
    updateStorageGroup := Except.ok (some { JobID := "j1", Status := "RUNNING" }),
    updateStorageGroupS := Except.ok (),
    waitOnJob := Except.ok failedJob,
    getVolumeByIdentifier := Except.ok { VolumeID := "00001" } }

/-- A 65-byte volume name, one past `MaxVolIdentifierLength`. -/
def name65 : String := String.mk (List.replicate 65 'a')

/-! Helper lemmas. -/

/-- String concatenation is associative (componentwise on the character data). -/
theorem string_append_assoc (a b c : String) : a ++ b ++ c = a ++ (b ++ c) := by
  rcases a with ⟨da⟩
  rcases b with ⟨db⟩
  rcases c with ⟨dc⟩
  show String.mk (da ++ db ++ dc) = String.mk (da ++ (db ++ dc))
  rw [List.append_assoc]

/-- The `to`-adjustment with `to = 0` yields `min (from + maxPageSize - 1) count`. -/
theorem adjustTo_zero (iter : VolumeIterator) (f : Int) :
    adjustTo iter f 0 = min (f + iter.MaxPageSize - 1) iter.Count := by
  unfold adjustTo clampToCount
  rw [if_pos (Or.inl rfl)]
  rcases le_total (f + iter.MaxPageSize - 1) iter.Count with h | h
  · rw [min_eq_left h]
    split <;> omega
  · rw [min_eq_right h]
    split <;> omega

/-- Every event emitted by the paging loop is a page GET. -/
theorem volLoop_events (server : PageServer) (iter : VolumeIterator) :
    ∀ (fuel : Nat) (f : Int) (acc : List String),
      ∀ e ∈ (volLoop server iter fuel f acc).snd, ∃ a b, e = Event.pageGet a b := by
  intro fuel
  induction fuel with
  | zero =>
    intro f acc e he
    unfold volLoop at he
    split at he <;> simp at he
  | succ n ih =>
    intro f acc e he
    unfold volLoop at he
    split at he
    · split at he
      · simp at he
        exact ⟨_, _, he⟩
      · simp at he
        rcases he with he | he
        · exact ⟨_, _, he⟩
        · exact ih _ _ e he
    · simp at he

/-! The claims. -/

/-- C1: Drain completeness against the mock page handler.  The claim states
that draining an iterator whose backing element list has `count` elements
returns exactly those `count` elements in ascending offset order with no
duplicates.  The code refutes it: for the backing list `l32` of 32 distinct
ids (`count = 3*maxPageSize + 2`), the drained list does have 32 entries but
drops the last element of every fetched page range and pads with `""`, so it
contains duplicates and is not the backing list. -/
theorem c1_mock_drain_drops_page_tails :
    (volumeIteratorToVolIDList (mockHandleIteratorGet l32) (Except.ok ())
        (mockVolumeIterator l32)).fst = Except.ok badList32
    ∧ badList32.length = 32 ∧ l32.Nodup ∧ ¬ badList32.Nodup ∧ badList32 ≠ l32 := by
  refine ⟨by decide, by decide, by decide, by decide, by decide⟩

/-- C2: Job terminal monotonicity.  The claim states that once a GET of a mock
job returned a terminal status, every later GET returns the same terminal
status.  The code refutes it: `returnJobByID` toggles between `InitialState`
and `FinalState`, so for a job created with initial RUNNING and final
SUCCEEDED the three first GETs return RUNNING, SUCCEEDED, RUNNING — the third
GET leaves the terminal state again. -/
theorem c2_mock_job_leaves_terminal_state :
    (mockJobGets "t0" (NewMockJob "job1" JobStatusRunning JobStatusSucceeded "rl") 3).map
        Job.Status = [JobStatusRunning, JobStatusSucceeded, JobStatusRunning]
    ∧ JobStatusRunning ≠ JobStatusSucceeded ∧ JobStatusRunning ≠ JobStatusFailed := by
  refine ⟨by decide, by decide, by decide⟩

/-- C6: Page-range defaulting and clamping in `GetVolumeIDsIteratorPage`: a
zero `to` defaults to `from + maxPageSize - 1` and is then clamped to `count`;
the adjusted range never extends past `count` and never spans more than
`maxPageSize` elements. -/
theorem c6_page_range_default_and_clamp (iter : VolumeIterator) (f t : Int) :
    (t = 0 → adjustTo iter f t = min (f + iter.MaxPageSize - 1) iter.Count)
    ∧ adjustTo iter f t ≤ iter.Count
    ∧ adjustTo iter f t - f + 1 ≤ iter.MaxPageSize := by
  refine ⟨fun ht => ht ▸ adjustTo_zero iter f, ?_, ?_⟩ <;>
    · unfold adjustTo clampToCount
      split <;> split <;> omega

/-- C6 witness: the adjustment evaluated at `iter11`, `from = 11`, `to = 0`. -/
theorem c6_page_range_default_and_clamp_witness :
    adjustTo iter11 11 0 = min (11 + iter11.MaxPageSize - 1) iter11.Count
    ∧ adjustTo iter11 11 0 ≤ iter11.Count
    ∧ adjustTo iter11 11 0 - 11 + 1 ≤ iter11.MaxPageSize :=
  ⟨(c6_page_range_default_and_clamp iter11 11 0).1 rfl,
   (c6_page_range_default_and_clamp iter11 11 0).2.1,
   (c6_page_range_default_and_clamp iter11 11 0).2.2⟩

/-- C7 counterexample: the claim states the second GET of a RUNNING→SUCCEEDED
mock job carries the result text "OK"; the mock actually stamps
"Mock job completed". -/
theorem c7_second_get_result_not_ok :
    ((mockJobGets "t0" (NewMockJob "job1" JobStatusRunning JobStatusSucceeded "rl") 2).map
        (fun j => (j.Status, j.Result)))
      = [(JobStatusRunning, "Mock job in-progress"), (JobStatusSucceeded, "Mock job completed")]
    ∧ ("Mock job completed" : String) ≠ "OK" := by
  refine ⟨by decide, by decide⟩

/-- C7 (amended): for a mock job with initial RUNNING and final SUCCEEDED, the
first GET returns RUNNING, the second returns SUCCEEDED with result
"Mock job completed", and the poller returns that job after exactly 2 GETs. -/
theorem c7_two_poll_scenario :
    waitOnJobCompletionMock "t0" 60 (NewMockJob "job1" JobStatusRunning JobStatusSucceeded "rl") 0
      = some ({ JobID := "job1", Status := JobStatusSucceeded, Result := "Mock job completed",
                ResourceLink := "rl", CompletedDate := "t0" }, 2)
    ∧ (mockJobGets "t0" (NewMockJob "job1" JobStatusRunning JobStatusSucceeded "rl") 1).map
        Job.Status = [JobStatusRunning] := by
  refine ⟨by decide, by decide⟩

/-- C8: Best-effort iterator release.  The outcome of the deferred
`DeleteVolumeIDsIterator` call is discarded by the drain: the value, the error
and even the issued-request trace of `volumeIteratorToVolIDList` are identical
whatever the deletion returns. -/
theorem c8_delete_failure_not_propagated (server : PageServer) (iter : VolumeIterator)
    (d1 d2 : Except String Unit) :
    volumeIteratorToVolIDList server d1 iter = volumeIteratorToVolIDList server d2 iter := rfl

/-- C9: Implicit page-length invariant.  A successful `GetVolumeIDsIteratorPage`
call returns a slice of length exactly `to - from + 1` for the adjusted range,
with the server's elements in front and every position beyond them equal to the
empty string. -/
theorem c9_page_slice_padded (server : PageServer) (iter : VolumeIterator) (f t : Int)
    (elems l : List String)
    (hs : server f (adjustTo iter f t) = Except.ok elems)
    (h : getVolumeIDsIteratorPage server iter f t = Except.ok l) :
    (l.length : Int) = adjustTo iter f t - f + 1
    ∧ l = elems ++ List.replicate ((adjustTo iter f t - f + 1).toNat - elems.length) "" := by
  simp only [getVolumeIDsIteratorPage, hs] at h
  by_cases h1 : adjustTo iter f t - f + 1 < 0
  · rw [if_pos h1] at h
    exact absurd h (by simp)
  rw [if_neg h1] at h
  by_cases h2 : (elems.length : Int) > adjustTo iter f t - f + 1
  · rw [if_pos h2] at h
    exact absurd h (by simp)
  rw [if_neg h2] at h
  have hl : l = padTo (adjustTo iter f t - f + 1).toNat elems := (Except.ok.inj h).symm
  constructor
  · rw [hl]
    simp only [padTo, List.length_append, List.length_replicate]
    omega
  · rw [hl]
    rfl

/-- C9 witness: a page request answered with two elements for an adjusted range
of five offsets comes back as the two elements padded with three empty
strings. -/
theorem c9_page_slice_padded_witness :
    serverAB 1 (adjustTo iter11 1 5) = Except.ok ["A", "B"]
    ∧ getVolumeIDsIteratorPage serverAB iter11 1 5 = Except.ok ["A", "B", "", "", ""]
    ∧ (((["A", "B", "", "", ""] : List String).length : Int) = adjustTo iter11 1 5 - 1 + 1
      ∧ (["A", "B", "", "", ""] : List String)
          = ["A", "B"] ++ List.replicate ((adjustTo iter11 1 5 - 1 + 1).toNat
              - (["A", "B"] : List String).length) "") :=
  ⟨by decide, by decide,
   c9_page_slice_padded serverAB iter11 1 5 ["A", "B"] ["A", "B", "", "", ""]
     (by decide) (by decide)⟩

/-- C5: Failed-job surfacing.  When the asynchronous update returns a job and
the poll completes with a job in terminal FAILED status, both
`AddVolumesToStorageGroup` and `CreateVolumeInStorageGroup` return the error
"The UpdateStorageGroup job failed: " followed by the job summary, which ends
with the job's result text — the failure is never treated as success. -/
theorem c5_failed_job_is_surfaced (env : ClientEnv) (job j0 : Job) (vids : List String)
    (name : String)
    (hallow : env.isAllowedArray = true)
    (hvids : vids.length ≠ 0)
    (hname : ¬ (name.utf8ByteSize : Int) > MaxVolIdentifierLength)
    (hupd : env.updateStorageGroup = Except.ok (some j0))
    (hwait : env.waitOnJob = Except.ok job)
    (hfail : job.Status = JobStatusFailed) :
    (AddVolumesToStorageGroup env vids).fst
        = Except.error ("The UpdateStorageGroup job failed: " ++ jobToString job)
    ∧ (CreateVolumeInStorageGroup env name).fst
        = Except.error ("The UpdateStorageGroup job failed: " ++ jobToString job)
    ∧ ∃ p, "The UpdateStorageGroup job failed: " ++ jobToString job = p ++ job.Result := by
  refine ⟨?_, ?_, ?_⟩
  · simp only [AddVolumesToStorageGroup]
    rw [hallow, hupd, hwait]
    simp [hvids, hfail]
  · simp only [CreateVolumeInStorageGroup]
    rw [hallow, hupd, hwait]
    simp [hname, hfail]
  · refine ⟨"The UpdateStorageGroup job failed: "
      ++ ("Job id: " ++ job.JobID ++ " status: " ++ job.Status ++ " result: "), ?_⟩
    simp only [jobToString]
    exact (string_append_assoc _ _ job.Result).symm

/-- C5 witness: the concrete environment `envFailed` whose poll returns
`failedJob`. -/
theorem c5_failed_job_is_surfaced_witness :
    (AddVolumesToStorageGroup envFailed ["00001"]).fst
        = Except.error ("The UpdateStorageGroup job failed: " ++ jobToString failedJob)
    ∧ (CreateVolumeInStorageGroup envFailed "vol1").fst
        = Except.error ("The UpdateStorageGroup job failed: " ++ jobToString failedJob)
    ∧ ∃ p, "The UpdateStorageGroup job failed: " ++ jobToString failedJob
        = p ++ failedJob.Result :=
  c5_failed_job_is_surfaced envFailed failedJob { JobID := "j1", Status := "RUNNING" }
    ["00001"] "vol1" rfl (by decide) (by decide) rfl rfl rfl

/-- C10: Implicit volume-name length guard.  A volume name longer than
`MaxVolIdentifierLength` bytes makes `CreateVolumeInStorageGroup` and
`CreateVolumeInStorageGroupS` return the guard error with an empty request
trace: no storage-group update is submitted and no job is created. -/
theorem c10_volume_name_guard (env : ClientEnv) (name : String)
    (hallow : env.isAllowedArray = true)
    (hlen : (name.utf8ByteSize : Int) > MaxVolIdentifierLength) :
    CreateVolumeInStorageGroup env name
        = (Except.error "Length of volumeName exceeds max limit", [])
    ∧ CreateVolumeInStorageGroupS env name
        = (Except.error "Length of volumeName exceeds max limit", []) := by
  simp only [CreateVolumeInStorageGroup, CreateVolumeInStorageGroupS]
  rw [hallow]
  simp [hlen]

/-- C10 witness: the 65-byte name `name65`. -/
theorem c10_volume_name_guard_witness :
    envFailed.isAllowedArray = true
    ∧ (name65.utf8ByteSize : Int) > MaxVolIdentifierLength
    ∧ CreateVolumeInStorageGroup envFailed name65
        = (Except.error "Length of volumeName exceeds max limit", [])
    ∧ CreateVolumeInStorageGroupS envFailed name65
        = (Except.error "Length of volumeName exceeds max limit", []) :=
  ⟨rfl, by decide,
   (c10_volume_name_guard envFailed name65 rfl (by decide)).1,
   (c10_volume_name_guard envFailed name65 rfl (by decide)).2⟩

/-- C4: Iterator release condition.  The drain's request trace ends with
exactly one DELETE of the iterator resource when `maxPageSize < count`, issued
after every page GET; when `count ≤ maxPageSize` the trace contains page GETs
only and no DELETE is ever issued. -/
theorem c4_iterator_release_condition (server : PageServer) (d : Except String Unit)
    (iter : VolumeIterator) :
    (iter.MaxPageSize < iter.Count →
      ∃ evs, (volumeIteratorToVolIDList server d iter).snd = evs ++ [Event.deleteIter iter.ID]
        ∧ ∀ e ∈ evs, ∃ a b, e = Event.pageGet a b)
    ∧ (iter.Count ≤ iter.MaxPageSize →
      ∀ e ∈ (volumeIteratorToVolIDList server d iter).snd, ∃ a b, e = Event.pageGet a b) := by
  constructor
  · intro hlt
    refine ⟨(volLoop server iter (drainFuel iter) (iter.ResultList.To + 1)
        iter.ResultList.VolumeList).snd, ?_, ?_⟩
    · simp only [volumeIteratorToVolIDList]
      rw [if_pos hlt]
    · exact volLoop_events server iter _ _ _
  · intro hle e he
    have hsnd : (volumeIteratorToVolIDList server d iter).snd
        = (volLoop server iter (drainFuel iter) (iter.ResultList.To + 1)
            iter.ResultList.VolumeList).snd := by
      simp only [volumeIteratorToVolIDList]
      rw [if_neg (not_lt.mpr hle)]
      simp
    rw [hsnd] at he
    exact volLoop_events server iter _ _ _ e he

/-- C4 witness: draining the 32-element mock iterator (three pages beyond the
first) issues page GETs followed by exactly one DELETE of the iterator. -/
theorem c4_iterator_release_condition_witness :
    (mockVolumeIterator l32).MaxPageSize < (mockVolumeIterator l32).Count
    ∧ ∃ evs, (volumeIteratorToVolIDList (mockHandleIteratorGet l32) (Except.ok ())
          (mockVolumeIterator l32)).snd = evs ++ [Event.deleteIter (mockVolumeIterator l32).ID]
        ∧ ∀ e ∈ evs, ∃ a b, e = Event.pageGet a b :=
  ⟨by decide,
   (c4_iterator_release_condition (mockHandleIteratorGet l32) (Except.ok ())
      (mockVolumeIterator l32)).1 (by decide)⟩

/-- Under a server that answers every page request for a nonempty range
successfully with at most the requested number of elements, the paging loop
succeeds and — because the client pads every page to its full requested span —
accumulates exactly one element per remaining offset. -/
theorem volLoop_length (server : PageServer) (iter : VolumeIterator)
    (hmps : 1 ≤ iter.MaxPageSize)
    (hsrv : ∀ a b : Int, a ≤ b → ∃ e, server a b = Except.ok e ∧ (e.length : Int) ≤ b - a + 1) :
    ∀ (fuel : Nat) (f : Int) (acc : List String),
      iter.Count - f + 1 ≤ (fuel : Int) →
      ∃ l evs, volLoop server iter fuel f acc = (Except.ok l, evs)
        ∧ (l.length : Int) = acc.length + max 0 (iter.Count - f + 1) := by
  intro fuel
  induction fuel with
  | zero =>
    intro f acc hfuel
    refine ⟨acc, [], ?_, ?_⟩
    · unfold volLoop
      rw [if_neg (by omega)]
    · omega
  | succ n ih =>
    intro f acc hfuel
    by_cases hf : f ≤ iter.Count
    · have hadj := adjustTo_zero iter f
      have hft : f ≤ adjustTo iter f 0 := by rw [hadj]; omega
      have hup : adjustTo iter f 0 ≤ iter.Count := by rw [hadj]; omega
      obtain ⟨e, hse, hle⟩ := hsrv f (adjustTo iter f 0) hft
      have hpage : getVolumeIDsIteratorPage server iter f 0
          = Except.ok (padTo (adjustTo iter f 0 - f + 1).toNat e) := by
        simp only [getVolumeIDsIteratorPage, hse]
        rw [if_neg (by omega), if_neg (by omega)]
      have hlen : ((padTo (adjustTo iter f 0 - f + 1).toNat e).length : Int)
          = adjustTo iter f 0 - f + 1 := by
        simp only [padTo, List.length_append, List.length_replicate]
        omega
      obtain ⟨l, evs, hrec, hreclen⟩ :=
        ih (f + ((padTo (adjustTo iter f 0 - f + 1).toNat e).length : Int))
           (acc ++ padTo (adjustTo iter f 0 - f + 1).toNat e)
           (by rw [hlen]; omega)
      refine ⟨l, Event.pageGet f (adjustTo iter f 0) :: evs, ?_, ?_⟩
      · unfold volLoop
        rw [if_pos hf, hpage]
        simp only [hrec]
      · rw [List.length_append] at hreclen
        push_cast at hreclen
        rw [hlen] at hreclen
        omega
    · refine ⟨acc, [], ?_, ?_⟩
      · unfold volLoop
        rw [if_neg hf]
      · omega

/-- C3 counterexample: `iter11` declares `count = 11` and a full first page
`[1,10]`, while the server returns zero elements for the fetched page
`[11,11]` — the pages actually return 10 elements in total, fewer than the
declared count, and the page GET returns fewer elements than its requested
range.  The drain nevertheless succeeds with a list padded by an empty string
instead of failing with the count-mismatch error. -/
theorem c3_short_pages_not_detected :
    (volumeIteratorToVolIDList emptyPages (Except.ok ()) iter11).fst = Except.ok (l10 ++ [""])
    ∧ iter11.Count = 11 ∧ l10.length = 10
    ∧ emptyPages 11 (adjustTo iter11 11 0) = Except.ok ([] : List String) := by
  refine ⟨by decide, by decide, by decide, by decide⟩

/-- C3 (amended): because every successful page fetch is padded to its full
requested span, the drain's final length check can only detect a defect of the
embedded first page: draining fails with the count-mismatch error exactly when
the first page's element count plus the spans of the remaining pages,
`max 0 (count - firstPage.to)`, differs from the declared count.  Shortfalls
inside fetched pages are padded with empty strings and never detected. -/
theorem c3_count_mismatch_characterization (server : PageServer) (d : Except String Unit)
    (iter : VolumeIterator)
    (hmps : 1 ≤ iter.MaxPageSize)
    (hto : 0 ≤ iter.ResultList.To)
    (hsrv : ∀ a b : Int, a ≤ b → ∃ e, server a b = Except.ok e ∧ (e.length : Int) ≤ b - a + 1) :
    (∃ msg, (volumeIteratorToVolIDList server d iter).fst = Except.error msg) ↔
      (iter.ResultList.VolumeList.length : Int)
        + max 0 (iter.Count - iter.ResultList.To) ≠ iter.Count := by
  obtain ⟨l, evs, hloop, hlen⟩ := volLoop_length server iter hmps hsrv (drainFuel iter)
      (iter.ResultList.To + 1) iter.ResultList.VolumeList
      (by simp only [drainFuel]; omega)
  have hspan : iter.Count - (iter.ResultList.To + 1) + 1 = iter.Count - iter.ResultList.To := by
    ring
  rw [hspan] at hlen
  have hfst : (volumeIteratorToVolIDList server d iter).fst
      = if (l.length : Int) ≠ iter.Count then
          Except.error ("Expected " ++ toString iter.Count ++ " ids but got "
            ++ toString l.length ++ " ids")
        else Except.ok l := by
    simp only [volumeIteratorToVolIDList, hloop]
  constructor
  · rintro ⟨msg, hmsg⟩
    intro hcnt
    rw [hfst, if_neg (by omega)] at hmsg
    exact absurd hmsg (by simp)
  · intro hne
    refine ⟨"Expected " ++ toString iter.Count ++ " ids but got "
      ++ toString l.length ++ " ids", ?_⟩
    rw [hfst, if_pos (by omega)]

/-- C3 (amended) witness: an iterator whose first page declares the whole
result `[1,5]` but carries only 3 elements fails the drain with the
count-mismatch error. -/
theorem c3_count_mismatch_characterization_witness :
    ∃ msg, (volumeIteratorToVolIDList emptyPages (Except.ok ()) iterShort).fst
      = Except.error msg :=
  (c3_count_mismatch_characterization emptyPages (Except.ok ()) iterShort (by decide) (by decide)
      (fun a b h => ⟨[], rfl, by simp; omega⟩)).mpr (by decide)

end Pmax
